import Mathlib

/-!
Shallow embedding of `src/server.py` (the AvionAI glue server), centred on the
`POST /api/generate` handler `generate`.  Strings are Lean `String`s; the
upstream Leonardo API is abstracted as structured responses (a job-creation
response and a stream of status-poll responses); the poll loop is fuel-bounded
recursion that also counts how many status queries were issued.
-/

/-- `ART_STYLE_PROMPTS` from `src/server.py` lines 15-28, as an association
list.  The fragment texts reproduce the Python triple-quoted strings exactly,
including the embedded newline and continuation indentation. -/
def ART_STYLE_PROMPTS : List (String × String) :=
  [ ("pixel", "16-bit pixel art style, retro gaming aesthetic, clean pixelated edges,\n        reminiscent of classic video games, limited color palette, sharp pixels"),
    ("anime", "anime art style, manga-inspired, cel-shaded, vibrant colors,\n        kawaii aesthetic, clean linework, anime character design"),
    ("3d", "3D rendered style, volumetric lighting, subsurface scattering,\n        realistic textures, ambient occlusion, ray-traced reflections"),
    ("minimalist", "minimalist design, clean lines, simple shapes,\n        limited color palette, negative space, geometric composition"),
    ("cartoon", "cartoon style, bold outlines, vibrant colors,\n        exaggerated features, playful design, smooth shading"),
    ("realistic", "realistic digital painting, detailed textures,\n        professional illustration, photorealistic elements, detailed shading") ]

/-- `ART_STYLE_PROMPTS.get(art_style, ART_STYLE_PROMPTS['pixel'])`
(`src/server.py` line 54): dictionary lookup with the `pixel` entry as
default. -/
def stylePrompt (art_style : String) : String :=
  (ART_STYLE_PROMPTS.lookup art_style).getD
    ((ART_STYLE_PROMPTS.lookup "pixel").getD "")

/-- The f-string `base_prompt` of `src/server.py` lines 57-60, with the exact
literal text around the interpolated `idea` and `style_prompt`. -/
def basePrompt (idea style_prompt : String) : String :=
  "detailed cryptocurrency mascot logo of a " ++ idea ++
    ",\n            " ++ style_prompt ++
    ",\n            centered composition, clean vectorized style,\n            suitable for crypto token, professional logo design"

/-- Python `str.isspace` on the ASCII whitespace characters recognised by
`str.split()` with no argument. -/
def pyIsSpace (c : Char) : Bool :=
  c = ' ' || c = '\t' || c = '\n' || c = '\r' || c = '\x0b' || c = '\x0c'

/-- Worker for `pySplit`: `acc` holds the characters of the current word in
reverse order. -/
def pySplitAux : List Char → List Char → List (List Char)
  | [], [] => []
  | [], acc => [acc.reverse]
  | c :: cs, acc =>
    if pyIsSpace c then
      match acc with
      | [] => pySplitAux cs []
      | _ :: _ => acc.reverse :: pySplitAux cs []
    else
      pySplitAux cs (c :: acc)

/-- Python `idea.split()` (no separator): split on runs of whitespace,
producing no empty words. -/
def pySplit (s : List Char) : List (List Char) :=
  pySplitAux s []

/-- `''.join(word[0].upper() for word in idea.split()[:3])`
(`src/server.py` line 114).  Each word coming out of `split()` is non-empty,
so taking the first character of each word is total. -/
def tickerOf (idea : String) : String :=
  String.mk ((((pySplit idea.data).take 3).map
    (fun w => (w.take 1).map Char.toUpper)).flatten)

/-- Worker for `pyTitle`: the flag records whether the previous character was
a cased (here: ASCII alphabetic) character.  A cased character following a
non-cased one is upper-cased, a cased character following a cased one is
lower-cased, non-cased characters pass through. -/
def pyTitleAux : Bool → List Char → List Char
  | _, [] => []
  | prevCased, c :: cs =>
    if c.isAlpha then
      (if prevCased then c.toLower else c.toUpper) :: pyTitleAux true cs
    else
      c :: pyTitleAux false cs

/-- Python `idea.title()` (`src/server.py` line 113), restricted to ASCII
casing. -/
def pyTitle (s : String) : String :=
  String.mk (pyTitleAux false s.data)

/-- Body of a JSON response produced by the `/api/generate` handler: either an
error object `{"error": msg}` or the success object of lines 111-118. -/
inductive Body where
  | error (msg : String)
  | success (imageUrl name ticker description : String) (socialLinks : List String)
deriving DecidableEq, Repr

/-- An HTTP response of the handler: status code plus JSON body. -/
structure HttpResponse where
  status : Nat
  body : Body
deriving DecidableEq, Repr

/-- Upstream response to the job-creation `POST /generations` call: HTTP
status and the raw response text. -/
structure CreateResponse where
  status : Nat
  text : String
deriving DecidableEq, Repr

/-- Upstream response to one status query `GET /generations/{id}`: HTTP
status, the `generations_by_pk.status` field of the JSON body, and the `url`
fields of `generations_by_pk.generated_images`. -/
structure PollResponse where
  status : Nat
  state : String
  imageUrls : List String
deriving DecidableEq, Repr

/-- The upstream Leonardo service as seen by one handler run: the
job-creation response and, for each `i`, the response to the `(i+1)`-th
status query. -/
structure Upstream where
  create : CreateResponse
  poll : Nat → PollResponse

/-- The parsed JSON body of the incoming request: `data.get('idea')` and
`data.get('artStyle', 'pixel')` (`src/server.py` lines 45-46).  A missing or
`null` field is `none`. -/
structure GenRequest where
  idea : Option String
  artStyle : Option String

/-- Response of `src/server.py` line 51. -/
def noIdeaResponse : HttpResponse :=
  { status := 400, body := .error "No idea provided" }

/-- Response of `src/server.py` line 121. -/
def timeoutResponse : HttpResponse :=
  { status := 500, body := .error "Timeout waiting for image" }

/-- Response produced when `generated_images[0]` raises `IndexError`, which
the `except` block of lines 123-128 converts to a 500. -/
def indexErrorResponse : HttpResponse :=
  { status := 500, body := .error "API request failed: list index out of range" }

/-- The success response of `src/server.py` lines 111-118. -/
def successResponse (idea image_url : String) : HttpResponse :=
  { status := 200,
    body := .success image_url (pyTitle idea) (tickerOf idea)
      ("Revolutionary " ++ idea ++ " token powered by advanced AI technology.")
      ["Twitter Account", "Telegram Group", "Website"] }

/-- The poll loop of `src/server.py` lines 102-121: `i` is the index of the
next status query, the fuel is the remaining iterations of `range(30)`.
Returns the handler response together with the number of status queries
issued.  A non-200 query, or a 200 query whose state is not `COMPLETE`,
consumes one iteration and continues; a `COMPLETE` query returns the first
image URL (or the `IndexError`-derived 500 if there is none); exhausted fuel
is the timeout response. -/
def pollLoop (poll : Nat → PollResponse) (idea : String) : Nat → Nat → HttpResponse × Nat
  | _, 0 => (timeoutResponse, 0)
  | i, fuel + 1 =>
    let r := poll i
    if r.status = 200 ∧ r.state = "COMPLETE" then
      match r.imageUrls with
      | [] => (indexErrorResponse, 1)
      | url :: _ => (successResponse idea url, 1)
    else
      let rest := pollLoop poll idea (i + 1) fuel
      (rest.1, rest.2 + 1)

/-- The `POST /api/generate` handler `generate` of `src/server.py` lines
40-132, paired with the number of status queries the run issues:
validate `idea`, look up the style, build the prompt, submit the job
(surfacing a non-200 creation response with its status and text), then poll
up to 30 times. -/
def generate (req : GenRequest) (upstream : Upstream) : HttpResponse × Nat :=
  match req.idea with
  | none => (noIdeaResponse, 0)
  | some idea =>
    if idea = "" then
      (noIdeaResponse, 0)
    else
      if upstream.create.status ≠ 200 then
        ({ status := upstream.create.status,
           body := .error ("Failed to generate image: " ++ upstream.create.text) }, 0)
      else
        pollLoop upstream.poll idea 0 30

/-- The prompt string the handler sends upstream for a given `idea` and
optional `artStyle` field. -/
def requestPrompt (idea : String) (artStyle : Option String) : String :=
  basePrompt idea (stylePrompt (artStyle.getD "pixel"))

/-! Concrete requests and upstream behaviours used to exercise the handler. -/

/-- The end-to-end request of the spec: idea "Happy Moon Dog", style "anime". -/
def reqHMD : GenRequest := { idea := some "Happy Moon Dog", artStyle := some "anime" }

/-- A one-word request. -/
def reqDoge : GenRequest := { idea := some "Doge", artStyle := none }

/-- A request whose idea starts with a digit word. -/
def req42 : GenRequest := { idea := some "42 coin", artStyle := none }

/-- A request whose idea is a single space: non-empty but whitespace-only. -/
def reqSpace : GenRequest := { idea := some " ", artStyle := none }

/-- A request with no `idea` field. -/
def reqNoIdea : GenRequest := { idea := none, artStyle := some "anime" }

/-- A status-poll response for a job that is still running. -/
def pendingPoll : PollResponse := { status := 200, state := "PENDING", imageUrls := [] }

/-- An upstream whose job never completes. -/
def upstreamPending : Upstream :=
  { create := { status := 200, text := "ok" }, poll := fun _ => pendingPoll }

/-- An upstream whose job completes on the third status query. -/
def upstreamComplete3 : Upstream :=
  { create := { status := 200, text := "ok" },
    poll := fun i =>
      if i = 2 then
        { status := 200, state := "COMPLETE", imageUrls := ["https://cdn.example/img0.png"] }
      else pendingPoll }

/-- An upstream whose job completes on the first status query. -/
def upstreamComplete1 : Upstream :=
  { create := { status := 200, text := "ok" },
    poll := fun _ =>
      { status := 200, state := "COMPLETE", imageUrls := ["https://cdn.example/img1.png"] } }

/-- An upstream whose job-creation call fails with 401. -/
def upstreamBadCreate : Upstream :=
  { create := { status := 401, text := "unauthorized" }, poll := fun _ => pendingPoll }

/-- A status-poll behaviour whose first query fails with 503 and is pending
afterwards. -/
def pollFail0 : Nat → PollResponse :=
  fun i => if i = 0 then { status := 503, state := "", imageUrls := [] } else pendingPoll

/-! ### Character-level lemmas for the ASCII casing functions -/

/-- Reduce a property of a character known to lie in a `Nat` code range to a
finite check over that range. -/
theorem char_ofNat_cases (P : Char → Prop) (lo cnt : Nat)
    (hall : ∀ n, n < cnt → P (Char.ofNat (lo + n)))
    (c : Char) (h1 : lo ≤ c.toNat) (h2 : c.toNat < lo + cnt) : P c := by
  have h := Char.ofNat_toNat c
  have he : c.toNat = lo + (c.toNat - lo) := by omega
  have hp := hall (c.toNat - lo) (by omega)
  rw [← he] at hp
  rwa [h] at hp

/-- An ASCII-alphabetic character has its code in `[65,90]` or `[97,122]`. -/
theorem isAlpha_bounds {c : Char} (h : c.isAlpha = true) :
    (65 ≤ c.toNat ∧ c.toNat < 91) ∨ (97 ≤ c.toNat ∧ c.toNat < 123) := by
  simp [Char.isAlpha, Char.isUpper, Char.isLower, UInt32.le_def, BitVec.le_def] at h
  have he : c.toNat = c.val.toBitVec.toNat := rfl
  omega

/-- Case conversion on alphabetic characters: both conversions are idempotent,
preserve alphabeticity, and upper-casing yields an uppercase letter. -/
theorem char_alpha_props (c : Char) (h : c.isAlpha = true) :
    c.toUpper.toUpper = c.toUpper ∧ c.toLower.toLower = c.toLower ∧
    c.toUpper.isAlpha = true ∧ c.toLower.isAlpha = true ∧ c.toUpper.isUpper = true := by
  rcases isAlpha_bounds h with ⟨h1, h2⟩ | ⟨h1, h2⟩
  · exact char_ofNat_cases
      (fun c => c.toUpper.toUpper = c.toUpper ∧ c.toLower.toLower = c.toLower ∧
        c.toUpper.isAlpha = true ∧ c.toLower.isAlpha = true ∧ c.toUpper.isUpper = true)
      65 26 (by decide) c h1 h2
  · exact char_ofNat_cases
      (fun c => c.toUpper.toUpper = c.toUpper ∧ c.toLower.toLower = c.toLower ∧
        c.toUpper.isAlpha = true ∧ c.toLower.isAlpha = true ∧ c.toUpper.isUpper = true)
      97 26 (by decide) c h1 h2

/-! ### Lemmas about `pyTitle` and `pySplit` -/

/-- One pass of the title-casing worker is idempotent, for either value of the
previous-character flag. -/
theorem pyTitleAux_idem (l : List Char) :
    ∀ b, pyTitleAux b (pyTitleAux b l) = pyTitleAux b l := by
  induction l with
  | nil => intro b; rfl
  | cons c cs ih =>
    intro b
    by_cases hc : c.isAlpha = true
    · obtain ⟨hu, hl, hua, hla, _⟩ := char_alpha_props c hc
      cases b
      · simp [pyTitleAux, hc, hua, hu, ih true]
      · simp [pyTitleAux, hc, hla, hl, ih true]
    · simp only [Bool.not_eq_true] at hc
      simp [pyTitleAux, hc, ih false]

/-- Every word produced by the split worker is non-empty. -/
theorem pySplitAux_ne_nil (s : List Char) :
    ∀ acc, ∀ w ∈ pySplitAux s acc, w ≠ [] := by
  induction s with
  | nil =>
    intro acc w hw
    cases acc with
    | nil => simp [pySplitAux] at hw
    | cons a as =>
      simp [pySplitAux] at hw
      subst hw
      simp
  | cons c cs ih =>
    intro acc w hw
    by_cases hs : pyIsSpace c = true
    · cases acc with
      | nil =>
        simp [pySplitAux, hs] at hw
        exact ih [] w hw
      | cons a as =>
        simp [pySplitAux, hs] at hw
        rcases hw with hw | hw
        · subst hw; simp
        · exact ih [] w hw
    · simp only [Bool.not_eq_true] at hs
      simp [pySplitAux, hs] at hw
      exact ih (c :: acc) w hw

/-- Splitting a string of whitespace characters yields no words. -/
theorem pySplitAux_all_space (s : List Char) (h : ∀ c ∈ s, pyIsSpace c = true) :
    pySplitAux s [] = [] := by
  induction s with
  | nil => rfl
  | cons c cs ih =>
    have hc := h c (by simp)
    simp [pySplitAux, hc]
    exact ih (fun d hd => h d (by simp [hd]))

/-! ### Lemmas about the poll loop and the handler -/

/-- If no queried attempt reports a completed state, the loop burns all its
fuel, issues one query per unit of fuel, and times out. -/
theorem pollLoop_timeout (poll : Nat → PollResponse) (idea : String) (fuel : Nat) :
    ∀ i, (∀ j, i ≤ j → j < i + fuel →
        ¬((poll j).status = 200 ∧ (poll j).state = "COMPLETE")) →
      pollLoop poll idea i fuel = (timeoutResponse, fuel) := by
  induction fuel with
  | zero => intro i _; rfl
  | succ fuel ih =>
    intro i h
    have hi := h i (le_refl i) (by omega)
    simp only [pollLoop, if_neg hi]
    rw [ih (i + 1) (fun j h1 h2 => h j (by omega) (by omega))]

/-- If the `(k+1)`-th queried attempt is the first to report a completed state
and it carries at least one image, the loop stops there, having issued exactly
`k+1` queries, and returns the first image URL. -/
theorem pollLoop_complete (poll : Nat → PollResponse) (idea : String) (k : Nat) :
    ∀ i fuel, k < fuel →
      (∀ j, j < k → ¬((poll (i + j)).status = 200 ∧ (poll (i + j)).state = "COMPLETE")) →
      (poll (i + k)).status = 200 → (poll (i + k)).state = "COMPLETE" →
      ∀ url rest, (poll (i + k)).imageUrls = url :: rest →
      pollLoop poll idea i fuel = (successResponse idea url, k + 1) := by
  induction k with
  | zero =>
    intro i fuel hfuel _ hst hcomp url rest himg
    obtain ⟨fuel, rfl⟩ : ∃ f, fuel = f + 1 := ⟨fuel - 1, by omega⟩
    simp only [Nat.add_zero] at hst hcomp himg
    simp only [pollLoop, if_pos (And.intro hst hcomp), himg]
  | succ k ih =>
    intro i fuel hfuel hbefore hst hcomp url rest himg
    obtain ⟨fuel, rfl⟩ : ∃ f, fuel = f + 1 := ⟨fuel - 1, by omega⟩
    have h0 := hbefore 0 (by omega)
    simp only [Nat.add_zero] at h0
    simp only [pollLoop, if_neg h0]
    rw [ih (i + 1) fuel (by omega)
      (fun j hj => by
        have hb := hbefore (j + 1) (by omega)
        rwa [show i + (j + 1) = i + 1 + j by omega] at hb)
      (by rwa [show i + 1 + k = i + (k + 1) by omega])
      (by rwa [show i + 1 + k = i + (k + 1) by omega])
      url rest
      (by rwa [show i + 1 + k = i + (k + 1) by omega])]

/-- Every response the poll loop can produce is the timeout response, the
`IndexError`-derived response, or a success response for some URL. -/
theorem pollLoop_shape (poll : Nat → PollResponse) (idea : String) (fuel : Nat) :
    ∀ i, (pollLoop poll idea i fuel).1 = timeoutResponse ∨
      (pollLoop poll idea i fuel).1 = indexErrorResponse ∨
      ∃ url, (pollLoop poll idea i fuel).1 = successResponse idea url := by
  induction fuel with
  | zero => intro i; exact Or.inl rfl
  | succ fuel ih =>
    intro i
    by_cases hc : (poll i).status = 200 ∧ (poll i).state = "COMPLETE"
    · cases himg : (poll i).imageUrls with
      | nil => right; left; simp [pollLoop, if_pos hc, himg]
      | cons url rest =>
        right; right
        exact ⟨url, by simp [pollLoop, if_pos hc, himg]⟩
    · have hs := ih (i + 1)
      simpa [pollLoop, if_neg hc] using hs

/-- A run with a non-empty idea and a successful job creation is exactly the
poll loop with 30 units of fuel. -/
theorem generate_poll (req : GenRequest) (upstream : Upstream) (idea : String)
    (hidea : req.idea = some idea) (hne : idea ≠ "")
    (hcreate : upstream.create.status = 200) :
    generate req upstream = pollLoop upstream.poll idea 0 30 := by
  simp [generate, hidea, hne, hcreate]

/-- Any success body the handler produces carries exactly the derived fields
of `src/server.py` lines 111-118. -/
theorem generate_success_shape (req : GenRequest) (upstream : Upstream) (idea : String)
    (hidea : req.idea = some idea)
    (url name tk desc links : _)
    (hbody : (generate req upstream).1.body = .success url name tk desc links) :
    name = pyTitle idea ∧ tk = tickerOf idea ∧
    desc = "Revolutionary " ++ idea ++ " token powered by advanced AI technology." ∧
    links = ["Twitter Account", "Telegram Group", "Website"] := by
  by_cases hne : idea = ""
  · subst hne
    simp [generate, hidea, noIdeaResponse] at hbody
  by_cases hcreate : upstream.create.status = 200
  · rw [generate_poll req upstream idea hidea hne hcreate] at hbody
    rcases pollLoop_shape upstream.poll idea 30 0 with h | h | ⟨u, h⟩
    · rw [h] at hbody; simp [timeoutResponse] at hbody
    · rw [h] at hbody; simp [indexErrorResponse] at hbody
    · rw [h] at hbody
      simp only [successResponse, Body.success.injEq] at hbody
      exact ⟨hbody.2.1.symm, hbody.2.2.1.symm, hbody.2.2.2.1.symm, hbody.2.2.2.2.symm⟩
  · simp [generate, hidea, hne, hcreate] at hbody

/-! ### Claim theorems -/

/-- C1: if all 30 status-poll attempts of a run finish without the upstream
job reporting a completed state, the handler returns HTTP 500 with body
`{"error": "Timeout waiting for image"}`, and exactly 30 status queries were
issued. -/
theorem C1_timeout_after_30_polls (req : GenRequest) (upstream : Upstream) (idea : String)
    (hidea : req.idea = some idea) (hne : idea ≠ "")
    (hcreate : upstream.create.status = 200)
    (hpoll : ∀ i, i < 30 →
      ¬((upstream.poll i).status = 200 ∧ (upstream.poll i).state = "COMPLETE")) :
    generate req upstream = ({ status := 500, body := .error "Timeout waiting for image" }, 30) := by
  rw [generate_poll req upstream idea hidea hne hcreate]
  rw [pollLoop_timeout upstream.poll idea 30 0 (fun j h1 h2 => hpoll j (by omega))]
  rfl

/-- Witness for C1: the "Happy Moon Dog" request against an upstream that
never completes times out with exactly 30 queries. -/
theorem C1_witness :
    generate reqHMD upstreamPending =
      ({ status := 500, body := .error "Timeout waiting for image" }, 30) :=
  C1_timeout_after_30_polls reqHMD upstreamPending "Happy Moon Dog" rfl (by decide) rfl
    (fun i _ => by simp [upstreamPending, pendingPoll])

/-- C2: if the first `k` status queries do not report a completed state and
the `(k+1)`-th (with `k+1 ≤ 30`) returns 200 with state COMPLETE, the loop
exits on that attempt: exactly `k+1` status queries are made and the success
response carries the URL of the first image of the upstream result (together
with the derived name, ticker, description and social links). -/
theorem C2_complete_on_attempt (req : GenRequest) (upstream : Upstream) (idea : String)
    (hidea : req.idea = some idea) (hne : idea ≠ "")
    (hcreate : upstream.create.status = 200)
    (k : Nat) (hk : k < 30)
    (hbefore : ∀ i, i < k →
      ¬((upstream.poll i).status = 200 ∧ (upstream.poll i).state = "COMPLETE"))
    (hst : (upstream.poll k).status = 200) (hcomp : (upstream.poll k).state = "COMPLETE")
    (url : String) (rest : List String) (himg : (upstream.poll k).imageUrls = url :: rest) :
    generate req upstream = (successResponse idea url, k + 1) := by
  rw [generate_poll req upstream idea hidea hne hcreate]
  exact pollLoop_complete upstream.poll idea k 0 30 hk
    (fun j hj => by simpa using hbefore j hj)
    (by simpa using hst) (by simpa using hcomp) url rest (by simpa using himg)

/-- Witness for C2, the end-to-end run of the spec: idea "Happy Moon Dog",
artStyle "anime", upstream completing on poll attempt 3 yields a 200 response
with success fields ticker "HMD" and name "Happy Moon Dog", and exactly 3
status queries were made. -/
theorem C2_witness :
    generate reqHMD upstreamComplete3 =
      ({ status := 200,
         body := .success "https://cdn.example/img0.png" "Happy Moon Dog" "HMD"
           "Revolutionary Happy Moon Dog token powered by advanced AI technology."
           ["Twitter Account", "Telegram Group", "Website"] }, 3) := by
  have h := C2_complete_on_attempt reqHMD upstreamComplete3 "Happy Moon Dog" rfl (by decide)
    rfl 2 (by decide) (fun i hi => by interval_cases i <;> decide) rfl rfl
    "https://cdn.example/img0.png" [] rfl
  rw [h]
  rfl

/-- C3: a non-200 upstream job-creation response makes the handler return
that same status with an error body that contains the upstream response text,
and no status query is ever issued in that run. -/
theorem C3_create_failure_surfaced (req : GenRequest) (upstream : Upstream) (idea : String)
    (hidea : req.idea = some idea) (hne : idea ≠ "")
    (hcreate : upstream.create.status ≠ 200) :
    generate req upstream =
      ({ status := upstream.create.status,
         body := .error ("Failed to generate image: " ++ upstream.create.text) }, 0) ∧
    ∃ pre post,
      "Failed to generate image: " ++ upstream.create.text =
        pre ++ upstream.create.text ++ post := by
  refine ⟨?_, "Failed to generate image: ", "", by simp⟩
  simp [generate, hidea, hne, hcreate]

/-- Witness for C3: a 401 job-creation response is surfaced as a 401 with the
upstream text embedded, with zero status queries. -/
theorem C3_witness :
    generate reqDoge upstreamBadCreate =
      ({ status := 401, body := .error "Failed to generate image: unauthorized" }, 0) ∧
    ∃ pre post, "Failed to generate image: unauthorized" = pre ++ "unauthorized" ++ post :=
  C3_create_failure_surfaced reqDoge upstreamBadCreate "Doge" rfl (by decide) (by decide)

/-- C4: during polling, a status query returning a non-200 status does not
exit the loop or produce an error: the run's outcome is exactly the outcome
of polling from the next attempt, with that attempt consuming one iteration
and its query counted. -/
theorem C4_non200_poll_skipped (poll : Nat → PollResponse) (idea : String) (i fuel : Nat)
    (h : (poll i).status ≠ 200) :
    pollLoop poll idea i (fuel + 1) =
      ((pollLoop poll idea (i + 1) fuel).1, (pollLoop poll idea (i + 1) fuel).2 + 1) := by
  have hne : ¬((poll i).status = 200 ∧ (poll i).state = "COMPLETE") := fun hc => h hc.1
  simp only [pollLoop, if_neg hne]

/-- Witness for C4: a first status query failing with 503 is skipped and
polling continues from the second attempt. -/
theorem C4_witness :
    pollLoop pollFail0 "Doge" 0 30 =
      ((pollLoop pollFail0 "Doge" 1 29).1, (pollLoop pollFail0 "Doge" 1 29).2 + 1) :=
  C4_non200_poll_skipped pollFail0 "Doge" 0 29 (by decide)

/-- C5: the ticker of every successful response is the concatenation of the
upper-cased first characters of (up to) the first three whitespace-separated
words of the idea; "Happy Moon Dog" gives "HMD", "Doge" gives "D", and only
the first three words ever contribute. -/
theorem C5_ticker_derivation (req : GenRequest) (upstream : Upstream) (idea : String)
    (hidea : req.idea = some idea)
    (url name tk desc links : _)
    (hbody : (generate req upstream).1.body = .success url name tk desc links) :
    tk = tickerOf idea ∧
    tickerOf "Happy Moon Dog" = "HMD" ∧
    tickerOf "Doge" = "D" ∧
    tickerOf "Alpha Beta Gamma Delta Epsilon" = tickerOf "Alpha Beta Gamma" ∧
    (∀ s t : String, (pySplit s.data).take 3 = (pySplit t.data).take 3 →
      tickerOf s = tickerOf t) := by
  refine ⟨(generate_success_shape req upstream idea hidea url name tk desc links hbody).2.1,
    by decide, by decide, by decide, ?_⟩
  intro s t h
  simp [tickerOf, h]

/-- Witness for C5: a completed run for idea "Doge" carries ticker
`tickerOf "Doge"`, which evaluates to "D". -/
theorem C5_witness :
    "D" = tickerOf "Doge" ∧
    tickerOf "Happy Moon Dog" = "HMD" ∧
    tickerOf "Doge" = "D" ∧
    tickerOf "Alpha Beta Gamma Delta Epsilon" = tickerOf "Alpha Beta Gamma" ∧
    (∀ s t : String, (pySplit s.data).take 3 = (pySplit t.data).take 3 →
      tickerOf s = tickerOf t) :=
  C5_ticker_derivation reqDoge upstreamComplete1 "Doge" rfl
    "https://cdn.example/img1.png" "Doge" "D"
    "Revolutionary Doge token powered by advanced AI technology."
    ["Twitter Account", "Telegram Group", "Website"] (by decide)

/-- C6: a request whose `idea` field is missing receives HTTP 400 with the
exact body `{"error": "No idea provided"}` (and issues no upstream query). -/
theorem C6_missing_idea (req : GenRequest) (upstream : Upstream)
    (hidea : req.idea = none) :
    generate req upstream = ({ status := 400, body := .error "No idea provided" }, 0) := by
  simp [generate, hidea, noIdeaResponse]

/-- Witness for C6: a concrete request without `idea` is rejected with 400. -/
theorem C6_witness :
    generate reqNoIdea upstreamPending =
      ({ status := 400, body := .error "No idea provided" }, 0) :=
  C6_missing_idea reqNoIdea upstreamPending rfl

/-- C7: the composed prompt contains the fragment mapped to the request's
`artStyle` key when that key is recognized, and the default (pixel) fragment
when the key is unrecognized or the field is absent, with no error in either
case. -/
theorem C7_style_fragment_in_prompt (idea : String) :
    (∀ key frag, ART_STYLE_PROMPTS.lookup key = some frag →
      ∃ pre post, requestPrompt idea (some key) = pre ++ frag ++ post) ∧
    (∀ key, ART_STYLE_PROMPTS.lookup key = none →
      ∃ pre post, requestPrompt idea (some key) = pre ++ stylePrompt "pixel" ++ post) ∧
    (∃ pre post, requestPrompt idea none = pre ++ stylePrompt "pixel" ++ post) := by
  refine ⟨?_, ?_, ?_⟩
  · intro key frag hk
    exact ⟨"detailed cryptocurrency mascot logo of a " ++ idea ++ ",\n            ",
      ",\n            centered composition, clean vectorized style,\n            suitable for crypto token, professional logo design",
      by simp [requestPrompt, basePrompt, stylePrompt, hk]⟩
  · intro key hk
    refine ⟨"detailed cryptocurrency mascot logo of a " ++ idea ++ ",\n            ",
      ",\n            centered composition, clean vectorized style,\n            suitable for crypto token, professional logo design", ?_⟩
    simp only [requestPrompt, Option.getD_some, basePrompt, stylePrompt, hk, Option.getD_none]
    rfl
  · exact ⟨"detailed cryptocurrency mascot logo of a " ++ idea ++ ",\n            ",
      ",\n            centered composition, clean vectorized style,\n            suitable for crypto token, professional logo design",
      by simp [requestPrompt, basePrompt, stylePrompt]⟩

/-- Witness for C7: the prompt for idea "Doge" with style "anime" contains
the anime fragment. -/
theorem C7_witness :
    ∃ pre post, requestPrompt "Doge" (some "anime") =
      pre ++ "anime art style, manga-inspired, cel-shaded, vibrant colors,\n        kawaii aesthetic, clean linework, anime character design" ++ post :=
  (C7_style_fragment_in_prompt "Doge").1 "anime"
    "anime art style, manga-inspired, cel-shaded, vibrant colors,\n        kawaii aesthetic, clean linework, anime character design" rfl

/-- Flattening the upper-cased first characters of non-empty words yields one
character per word. -/
theorem flatten_heads_length (ws : List (List Char)) (h : ∀ w ∈ ws, w ≠ []) :
    ((ws.map (fun w => (w.take 1).map Char.toUpper)).flatten).length = ws.length := by
  induction ws with
  | nil => rfl
  | cons w rest ih =>
    have hw : w ≠ [] := h w (by simp)
    obtain ⟨c, cs, rfl⟩ : ∃ c cs, w = c :: cs := by
      cases w with
      | nil => exact absurd rfl hw
      | cons c cs => exact ⟨c, cs, rfl⟩
    have ih' := ih (fun u hu => h u (by simp [hu]))
    rw [List.map_cons, List.flatten_cons, List.length_append, ih']
    simp only [List.length_map, List.length_take, List.length_cons]
    omega

/-- If every word's first character is alphabetic, every character of the
flattened upper-cased first characters is an uppercase letter. -/
theorem flatten_heads_upper (ws : List (List Char))
    (h : ∀ w ∈ ws, (w.take 1).all Char.isAlpha = true) :
    ((ws.map (fun w => (w.take 1).map Char.toUpper)).flatten).all Char.isUpper = true := by
  rw [List.all_eq_true]
  intro c hc
  rw [List.mem_flatten] at hc
  obtain ⟨blk, hblk, hcblk⟩ := hc
  rw [List.mem_map] at hblk
  obtain ⟨w, hw, rfl⟩ := hblk
  rw [List.mem_map] at hcblk
  obtain ⟨d, hd, rfl⟩ := hcblk
  have hda : d.isAlpha = true := by
    have hall := h w hw
    rw [List.all_eq_true] at hall
    exact hall d hd
  exact (char_alpha_props d hda).2.2.2.2

/-- Counterexample to C8 as stated: for idea "42 coin" a successful response
carries ticker "4C", whose first character is not an uppercase letter. -/
theorem C8_counterexample :
    (generate req42 upstreamComplete1).1.body =
      .success "https://cdn.example/img1.png" "42 Coin" "4C"
        "Revolutionary 42 coin token powered by advanced AI technology."
        ["Twitter Account", "Telegram Group", "Website"] ∧
    "4C".data.all Char.isUpper = false := by
  exact ⟨by decide, by decide⟩

/-- C8 (amended): in every successful response the ticker has at most 3
characters, exactly one (the upper-cased first character) per leading word of
the idea, up to the first three; when each of those words begins with a
letter, every ticker character is an uppercase letter. -/
theorem C8_ticker_shape (req : GenRequest) (upstream : Upstream) (idea : String)
    (hidea : req.idea = some idea)
    (url name tk desc links : _)
    (hbody : (generate req upstream).1.body = .success url name tk desc links) :
    tk.length ≤ 3 ∧
    tk.length = min 3 (pySplit idea.data).length ∧
    ((∀ w ∈ (pySplit idea.data).take 3, (w.take 1).all Char.isAlpha = true) →
      tk.data.all Char.isUpper = true) := by
  obtain ⟨-, htk, -, -⟩ :=
    generate_success_shape req upstream idea hidea url name tk desc links hbody
  subst htk
  have hwords : ∀ w ∈ (pySplit idea.data).take 3, w ≠ [] := fun w hw =>
    pySplitAux_ne_nil idea.data [] w (List.mem_of_mem_take hw)
  have hlen : (tickerOf idea).length = ((pySplit idea.data).take 3).length :=
    flatten_heads_length ((pySplit idea.data).take 3) hwords
  refine ⟨?_, ?_, ?_⟩
  · rw [hlen, List.length_take]
    omega
  · rw [hlen, List.length_take]
  · intro hAlpha
    exact flatten_heads_upper ((pySplit idea.data).take 3) hAlpha

/-- Witness for the amended C8: the completed "Happy Moon Dog" run has a
ticker of 3 uppercase letters, one per word. -/
theorem C8_witness :
    "HMD".length ≤ 3 ∧
    "HMD".length = min 3 (pySplit "Happy Moon Dog".data).length ∧
    ((∀ w ∈ (pySplit "Happy Moon Dog".data).take 3, (w.take 1).all Char.isAlpha = true) →
      "HMD".data.all Char.isUpper = true) :=
  C8_ticker_shape reqHMD upstreamComplete3 "Happy Moon Dog" rfl
    "https://cdn.example/img0.png" "Happy Moon Dog" "HMD"
    "Revolutionary Happy Moon Dog token powered by advanced AI technology."
    ["Twitter Account", "Telegram Group", "Website"] (by decide)

/-- C9: name derivation is idempotent under title-casing: title-casing the
derived name (the idea title-cased) again yields the same string. -/
theorem C9_title_idempotent (s : String) : pyTitle (pyTitle s) = pyTitle s :=
  congrArg String.mk (pyTitleAux_idem s.data false)

/-- C10: a non-empty idea consisting only of whitespace passes input
validation (the handler never answers with the "No idea provided" error for
it), and any successful response for it carries the empty ticker. -/
theorem C10_whitespace_only_idea (req : GenRequest) (upstream : Upstream) (s : String)
    (hidea : req.idea = some s) (hne : s ≠ "")
    (hws : ∀ c ∈ s.data, pyIsSpace c = true) :
    (generate req upstream).1.body ≠ Body.error "No idea provided" ∧
    (∀ url name tk desc links,
      (generate req upstream).1.body = .success url name tk desc links → tk = "") := by
  constructor
  · by_cases hcreate : upstream.create.status = 200
    · rw [generate_poll req upstream s hidea hne hcreate]
      rcases pollLoop_shape upstream.poll s 30 0 with h | h | ⟨u, h⟩ <;> rw [h]
      · simp [timeoutResponse]
      · simp [indexErrorResponse]
      · simp [successResponse]
    · simp only [generate, hidea, hne, if_neg hne, if_neg, hcreate]
      rw [if_pos hcreate]
      intro hcontra
      have hmsg : "Failed to generate image: " ++ upstream.create.text = "No idea provided" :=
        Body.error.inj hcontra
      have hlenEq := congrArg String.length hmsg
      rw [String.length_append] at hlenEq
      have h26 : ("Failed to generate image: " : String).length = 26 := rfl
      have h16 : ("No idea provided" : String).length = 16 := rfl
      omega
  · intro url name tk desc links hbody
    obtain ⟨-, htk, -, -⟩ :=
      generate_success_shape req upstream s hidea url name tk desc links hbody
    have hsplit : pySplit s.data = [] := pySplitAux_all_space s.data hws
    rw [htk]
    simp [tickerOf, hsplit]

/-- Witness for C10: a single-space idea is not rejected and yields an empty
ticker in any successful response. -/
theorem C10_witness :
    (generate reqSpace upstreamPending).1.body ≠ Body.error "No idea provided" ∧
    (∀ url name tk desc links,
      (generate reqSpace upstreamPending).1.body = .success url name tk desc links →
        tk = "") :=
  C10_whitespace_only_idea reqSpace upstreamPending " " rfl (by decide) (by decide)
